import Mathlib

set_option linter.unusedVariables false
set_option maxHeartbeats 1000000

/-!
Verification of the Buildora frontend orchestrator (the `ChatPage` component).

The component drives two pipelines against remote services:
* `generateCode` - the generation pipeline: short-circuit check, generate,
  parse, persist structure, write files, package (zipFolder), build/deploy
  (buildrun), record (PUT to the project store);
* `handleSubmit` - the modification pipeline: analyze (generateChanges),
  resolve file set (extractFilesToChange), rewrite (modify), write files;
plus `fetchProjectDeploymentUrl`, the pure status-recovery path for an
existing project.

Each remote call is modeled by an environment record: `none` (or `false`)
means the call threw, `some x` means it returned `x`.  The component state
(`useState` hooks and `useRef` guards) is an explicit record; each operation
returns the final state together with the list of stages it invoked, the
sequence of `setProjectStatus` calls, and the sequence of `setError` calls.

`parseFrontendCode` lives in `../utils/newParserWithst`, which is not part of
the shown sources; its result (or its throwing) is supplied by the
environment field `parsed`, faithful to any behavior of that function.
-/

/-- The four values of the `projectStatus` display state. -/
inductive ProjectStatus where
  | idle
  | loading
  | ready
  | error
  deriving DecidableEq

/-- One external-service invocation (a pipeline stage).  `shortCircuitCheck`
is the GET issued by the generation pipeline before anything else;
`analyze`, `resolveFiles`, `rewrite` belong to the modification pipeline;
`writeFiles` is shared by both pipelines (the same `/write-files` service). -/
inductive Stage where
  | shortCircuitCheck
  | generate
  | parse
  | persistStructure
  | writeFiles
  | package
  | buildDeploy
  | record
  | analyze
  | resolveFiles
  | rewrite
  deriving DecidableEq

/-- Position of a stage in the generation pipeline order (modification
stages come after all generation stages). -/
def stageIdx : Stage → Nat
  | Stage.shortCircuitCheck => 0
  | Stage.generate => 1
  | Stage.parse => 2
  | Stage.persistStructure => 3
  | Stage.writeFiles => 4
  | Stage.package => 5
  | Stage.buildDeploy => 6
  | Stage.record => 7
  | Stage.analyze => 8
  | Stage.resolveFiles => 9
  | Stage.rewrite => 10

inductive MsgType where
  | user
  | assistant
  deriving DecidableEq

/-- A chat message (the append-only log).  `id` models the
`Date.now()`-derived identifier. -/
structure Message where
  id : Nat
  content : String
  mtype : MsgType
  deriving DecidableEq

/-- A project record as returned by the project store.  In the JS code a
missing `deploymentUrl` field is `undefined`; both `undefined` and the empty
string are falsy, which `optStrTruthy` below captures. -/
structure Project where
  id : Nat
  deploymentUrl : Option String
  status : Option String
  deriving DecidableEq

/-- A (path, content) file pair. -/
structure FileItem where
  path : String
  content : String
  deriving DecidableEq

/-- The result of `parseFrontendCode`: a structural description plus the
ordered code files. -/
structure ParsedFrontend where
  structureDesc : String
  codeFiles : List FileItem
  deriving DecidableEq

/-- The `ChatPage` component state: the `useState` hooks plus the
`isGenerating` / `currentProjectId` refs.  `structureValue` is the context
`value` (the persisted structural description). -/
structure ChatState where
  loadingCode : Bool
  messages : List Message
  prompt : String
  isLoading : Bool
  previewUrl : String
  error : String
  projectStatus : ProjectStatus
  structureValue : Option String
  isGenerating : Bool
  currentProjectId : Option Nat
  deriving DecidableEq

/-- The component's initial state (all hooks at their `useState` initial
values, refs cleared). -/
def initState : ChatState :=
  { loadingCode := false
    messages := []
    prompt := ""
    isLoading := false
    previewUrl := ""
    error := ""
    projectStatus := ProjectStatus.idle
    structureValue := none
    isGenerating := false
    currentProjectId := none }

/-- JS truthiness of a string: the empty string is falsy. -/
def strTruthy (s : String) : Bool := s != ""

/-- JS `String.prototype.trim`: strip leading and trailing whitespace. -/
def jsTrim (s : String) : String :=
  String.mk (((s.data.dropWhile Char.isWhitespace).reverse.dropWhile Char.isWhitespace).reverse)

/-- JS truthiness of a possibly-undefined string field. -/
def optStrTruthy : Option String → Bool
  | none => false
  | some s => strTruthy s

/-- JS truthiness of a possibly-undefined number: `0` and `undefined` are
falsy (the source tests `if (projId)`). -/
def optNatTruthy : Option Nat → Bool
  | none => false
  | some n => n != 0

/-- The string passed to `setError` in `generateCode`'s catch block. -/
def failedGenerateMsg : String := "Failed to generate code"

/-- The error shown when an existing project has no deployment URL. -/
def urlNotFoundMsg : String := "Project deployment URL not found"

/-- The error shown when fetching an existing project throws. -/
def failedLoadMsg : String := "Failed to load project"

/-- The string passed to `setError` in `handleSubmit`'s catch block. -/
def failedApplyMsg : String := "Failed to apply changes"

/-- The assistant message appended on modification success. -/
def changesAppliedMsg : String := "Changes applied successfully!"

/-- The assistant message appended on modification failure. -/
def applyErrorReplyMsg : String := "Sorry, I encountered an error while applying the changes."

/-- Responses of the external services used by the generation pipeline.
`none` / `false` means the corresponding call (or field access on its
response) threw. -/
structure GenEnv where
  getProject : Option Project
  frontendText : Option String
  parsed : Option ParsedFrontend
  writeFilesOk : Bool
  publicUrl : Option String
  builtPreviewUrl : Option String
  putOk : Bool

/-- Outcome of one `generateCode` call: final state, invoked stages in
order, the sequence of `setProjectStatus` calls, and the sequence of
`setError` calls. -/
structure GenResult where
  state : ChatState
  trace : List Stage
  statusTrace : List ProjectStatus
  errorEvents : List String

/-- The `finally` block of `generateCode`: `setLoadingCode(false)` and
`isGenerating.current = false`. -/
def finallyGen (r : GenResult) : GenResult :=
  { r with state := { r.state with loadingCode := false, isGenerating := false } }

/-- The `catch` block of `generateCode`: `setError("Failed to generate
code")` and `setProjectStatus("error")`. -/
def catchGen (s : ChatState) (tr : List Stage) (st : List ProjectStatus)
    (er : List String) : GenResult :=
  { state := { s with error := failedGenerateMsg, projectStatus := ProjectStatus.error }
    trace := tr
    statusTrace := st ++ [ProjectStatus.error]
    errorEvents := er ++ [failedGenerateMsg] }

/-- The body of `generateCode` after the short-circuit check: generate,
parse, persist structure, write files, package, build/deploy, record. -/
def generateMain (projId : Option Nat) (env : GenEnv) (s : ChatState)
    (tr : List Stage) (st : List ProjectStatus) (er : List String) : GenResult :=
  match env.frontendText with
  | none => finallyGen (catchGen s (tr ++ [Stage.generate]) st er)
  | some _ =>
    match env.parsed with
    | none => finallyGen (catchGen s (tr ++ [Stage.generate, Stage.parse]) st er)
    | some p =>
      let s1 := { s with structureValue := some p.structureDesc }
      let tr1 := tr ++ [Stage.generate, Stage.parse, Stage.persistStructure, Stage.writeFiles]
      if env.writeFilesOk then
        match env.publicUrl with
        | none => finallyGen (catchGen s1 (tr1 ++ [Stage.package]) st er)
        | some _ =>
          match env.builtPreviewUrl with
          | none => finallyGen (catchGen s1 (tr1 ++ [Stage.package, Stage.buildDeploy]) st er)
          | some purl =>
            let s2 := { s1 with previewUrl := purl, projectStatus := ProjectStatus.ready }
            let tr2 := tr1 ++ [Stage.package, Stage.buildDeploy]
            let st2 := st ++ [ProjectStatus.ready]
            if optNatTruthy projId && strTruthy purl then
              if env.putOk then
                finallyGen { state := s2, trace := tr2 ++ [Stage.record], statusTrace := st2, errorEvents := er }
              else
                finallyGen (catchGen s2 (tr2 ++ [Stage.record]) st2 er)
            else
              finallyGen { state := s2, trace := tr2, statusTrace := st2, errorEvents := er }
      else
        finallyGen (catchGen s1 tr1 st er)

/-- The `generateCode` callback.  Absorbs the call when `isGenerating` is
set; otherwise marks the guard, clears the error, enters `loading`, runs
the short-circuit check when a truthy `projId` was given, and otherwise
runs the main pipeline. -/
def generateCode (userPrompt : String) (projId : Option Nat) (env : GenEnv)
    (s0 : ChatState) : GenResult :=
  if s0.isGenerating then
    { state := s0, trace := [], statusTrace := [], errorEvents := [] }
  else
    let s := { s0 with isGenerating := true
                       loadingCode := true
                       error := ""
                       projectStatus := ProjectStatus.loading }
    if optNatTruthy projId then
      match env.getProject with
      | none => finallyGen (catchGen s [Stage.shortCircuitCheck] [ProjectStatus.loading] [""])
      | some project =>
        if optStrTruthy project.deploymentUrl then
          { state := { s with previewUrl := project.deploymentUrl.getD ""
                              projectStatus := ProjectStatus.ready
                              loadingCode := false
                              isGenerating := false }
            trace := [Stage.shortCircuitCheck]
            statusTrace := [ProjectStatus.loading, ProjectStatus.ready]
            errorEvents := [""] }
        else
          generateMain projId env s [Stage.shortCircuitCheck] [ProjectStatus.loading] [""]
    else
      generateMain projId env s [] [ProjectStatus.loading] [""]

/-- Environment of `fetchProjectDeploymentUrl`: the project-store GET. -/
structure FetchEnv where
  getProject : Option Project

/-- Outcome of one `fetchProjectDeploymentUrl` call. -/
structure FetchResult where
  state : ChatState
  statusTrace : List ProjectStatus
  errorEvents : List String

/-- The `fetchProjectDeploymentUrl` callback: the pure "fetch current
status" path used for an existing project. -/
def fetchProjectDeploymentUrl (projId : Nat) (env : FetchEnv)
    (s0 : ChatState) : FetchResult :=
  if s0.currentProjectId = some projId ∧ s0.projectStatus ≠ ProjectStatus.idle then
    { state := s0, statusTrace := [], errorEvents := [] }
  else
    let s := { s0 with loadingCode := true
                       error := ""
                       projectStatus := ProjectStatus.loading
                       currentProjectId := some projId }
    match env.getProject with
    | some project =>
      if optStrTruthy project.deploymentUrl then
        { state := { s with previewUrl := project.deploymentUrl.getD ""
                            projectStatus := ProjectStatus.ready
                            loadingCode := false }
          statusTrace := [ProjectStatus.loading, ProjectStatus.ready]
          errorEvents := [""] }
      else
        { state := { s with projectStatus := ProjectStatus.error
                            error := urlNotFoundMsg
                            loadingCode := false }
          statusTrace := [ProjectStatus.loading, ProjectStatus.error]
          errorEvents := ["", urlNotFoundMsg] }
    | none =>
      { state := { s with error := failedLoadMsg
                          projectStatus := ProjectStatus.error
                          loadingCode := false }
        statusTrace := [ProjectStatus.loading, ProjectStatus.error]
        errorEvents := ["", failedLoadMsg] }

/-- JSON values, as produced by `JSON.parse`. -/
inductive Json where
  | null
  | bool (b : Bool)
  | num (n : Int)
  | str (s : String)
  | arr (items : List Json)
  | obj (fields : List (String × Json))

def Json.isNull : Json → Bool
  | Json.null => true
  | _ => false

def Json.isArr : Json → Bool
  | Json.arr _ => true
  | _ => false

def jsonLookup : List (String × Json) → String → Option Json
  | [], _ => none
  | (k, v) :: rest, key => if k = key then some v else jsonLookup rest key

/-- JS member access `j.key`: throws (TypeError) on `null`, yields
`undefined` (`none`) on objects lacking the key and on primitives. -/
def jsProp : Json → String → Except Unit (Option Json)
  | Json.null, _ => Except.error ()
  | Json.obj fields, key => Except.ok (jsonLookup fields key)
  | _, _ => Except.ok none

/-- One element of the payload sent to `/write-files` by the modification
pipeline: the `path` / `content` properties read off a parsed item,
`none` meaning the property was `undefined`. -/
structure WriteItem where
  path : Option Json
  content : Option Json

/-- The `parsedData.map((item) => ({ path: item.path, content: item.content }))`
expression: reads `path` then `content` of each element in order, throwing
at the first `null` element. -/
def mapResultItems : List Json → Except Unit (List WriteItem)
  | [] => Except.ok []
  | item :: rest =>
    match jsProp item "path" with
    | Except.error e => Except.error e
    | Except.ok p =>
      match jsProp item "content" with
      | Except.error e => Except.error e
      | Except.ok c =>
        match mapResultItems rest with
        | Except.error e => Except.error e
        | Except.ok tail => Except.ok ({ path := p, content := c } :: tail)

/-- `.map` applied to the value returned by `JSON.parse`: throws a
TypeError unless the value is an array. -/
def jsArrayMapItems : Json → Except Unit (List WriteItem)
  | Json.arr xs => mapResultItems xs
  | _ => Except.error ()

/-- Responses of the external services used by the modification pipeline.
`modifyJson = none` means the `/modify` call threw; `some none` means it
returned text that `JSON.parse` rejects; `some (some j)` means the text
parsed to `j`.  `now` supplies `Date.now()` for message ids. -/
structure SubmitEnv where
  now : Nat
  analysisText : Option String
  filesToChange : Option (List FileItem)
  modifyJson : Option (Option Json)
  writeFilesOk : Bool

/-- Outcome of one `handleSubmit` call.  `writeFilesPayload` is the files
array submitted to `/write-files`, when that call was made. -/
structure SubmitResult where
  state : ChatState
  trace : List Stage
  errorEvents : List String
  writeFilesPayload : Option (List WriteItem)

/-- The `catch` block of `handleSubmit`: `setError("Failed to apply
changes")` and the apologetic assistant message; then the `finally`
(`setIsLoading(false)`). -/
def submitCatch (env : SubmitEnv) (s : ChatState) (tr : List Stage)
    (payload : Option (List WriteItem)) : SubmitResult :=
  { state := { s with error := failedApplyMsg
                      messages := s.messages ++
                        [{ id := env.now + 1, content := applyErrorReplyMsg, mtype := MsgType.assistant }]
                      isLoading := false }
    trace := tr
    errorEvents := ["", failedApplyMsg]
    writeFilesPayload := payload }

/-- The `handleSubmit` callback (the `applyChange` command): guard on an
empty trimmed prompt or an in-flight modification, append the user
message, then analyze, resolve files, rewrite, parse, write files. -/
def handleSubmit (env : SubmitEnv) (s0 : ChatState) : SubmitResult :=
  if jsTrim s0.prompt = "" ∨ s0.isLoading = true then
    { state := s0, trace := [], errorEvents := [], writeFilesPayload := none }
  else
    let userMsg : Message := { id := env.now, content := s0.prompt, mtype := MsgType.user }
    let s := { s0 with isLoading := true
                       error := ""
                       messages := s0.messages ++ [userMsg]
                       prompt := "" }
    match env.analysisText with
    | none => submitCatch env s [Stage.analyze] none
    | some _ =>
      match env.filesToChange with
      | none => submitCatch env s [Stage.analyze, Stage.resolveFiles] none
      | some _ =>
        match env.modifyJson with
        | none => submitCatch env s [Stage.analyze, Stage.resolveFiles, Stage.rewrite] none
        | some none => submitCatch env s [Stage.analyze, Stage.resolveFiles, Stage.rewrite] none
        | some (some parsedData) =>
          match jsArrayMapItems parsedData with
          | Except.error _ => submitCatch env s [Stage.analyze, Stage.resolveFiles, Stage.rewrite] none
          | Except.ok items =>
            if env.writeFilesOk then
              { state := { s with messages := s.messages ++
                                    [{ id := env.now + 1, content := changesAppliedMsg, mtype := MsgType.assistant }]
                                  isLoading := false }
                trace := [Stage.analyze, Stage.resolveFiles, Stage.rewrite, Stage.writeFiles]
                errorEvents := [""]
                writeFilesPayload := some items }
            else
              submitCatch env s
                [Stage.analyze, Stage.resolveFiles, Stage.rewrite, Stage.writeFiles]
                (some items)

/-- The full generation stage sequence claimed by the specification. -/
def fullGenSequence : List Stage :=
  [Stage.generate, Stage.parse, Stage.persistStructure, Stage.writeFiles,
   Stage.package, Stage.buildDeploy, Stage.record]

/-- All generation-pipeline services succeed. -/
def genAllOk (env : GenEnv) : Prop :=
  env.frontendText.isSome = true ∧ env.parsed.isSome = true ∧
  env.writeFilesOk = true ∧ env.publicUrl.isSome = true ∧
  env.builtPreviewUrl.isSome = true ∧ env.putOk = true

/-- The first stage of the main generation pipeline that fails for a given
environment (`none` when the run succeeds end to end).  The record stage
only runs when the project id and the built URL are truthy. -/
def genFirstFailure (env : GenEnv) (projId : Option Nat) : Option Stage :=
  match env.frontendText with
  | none => some Stage.generate
  | some _ =>
    match env.parsed with
    | none => some Stage.parse
    | some _ =>
      if env.writeFilesOk then
        match env.publicUrl with
        | none => some Stage.package
        | some _ =>
          match env.builtPreviewUrl with
          | none => some Stage.buildDeploy
          | some purl =>
            if optNatTruthy projId && strTruthy purl then
              if env.putOk then none else some Stage.record
            else none
      else some Stage.writeFiles

/-- Modelled from the spec: the display-state transitions the claim allows
(`idle → loading → ready / error`, with `ready` / `error` re-entering
`loading` on a new command; re-setting the current value is not a
transition). -/
def claimStep : ProjectStatus → ProjectStatus → Bool
  | ProjectStatus.idle, ProjectStatus.idle => true
  | ProjectStatus.idle, ProjectStatus.loading => true
  | ProjectStatus.loading, ProjectStatus.loading => true
  | ProjectStatus.loading, ProjectStatus.ready => true
  | ProjectStatus.loading, ProjectStatus.error => true
  | ProjectStatus.ready, ProjectStatus.ready => true
  | ProjectStatus.ready, ProjectStatus.loading => true
  | ProjectStatus.error, ProjectStatus.error => true
  | ProjectStatus.error, ProjectStatus.loading => true
  | _, _ => false

/-- The transitions the code actually exhibits: the claimed ones plus
`ready → error` (the record step failing after deployment). -/
def amendedStep (a b : ProjectStatus) : Bool :=
  claimStep a b || (a == ProjectStatus.ready && b == ProjectStatus.error)

/-- Every adjacent pair of a status chain (starting value followed by the
recorded `setProjectStatus` values) satisfies `step`. -/
def chainOk (step : ProjectStatus → ProjectStatus → Bool) :
    ProjectStatus → List ProjectStatus → Bool
  | _, [] => true
  | a, b :: rest => step a b && chainOk step b rest

/-! ## Concrete fixtures -/

/-- A stored project record carrying a deployment URL. -/
def projWithUrl : Project :=
  { id := 7, deploymentUrl := some "https://preview.example/7", status := some "ready" }

/-- A stored project record with no deployment URL. -/
def projNoUrl : Project :=
  { id := 42, deploymentUrl := none, status := some "pending" }

/-- Environment where the stored record already has a deployment URL (the
remaining services are set to throw, which the short circuit must never
observe). -/
def envShortCircuit : GenEnv :=
  { getProject := some projWithUrl
    frontendText := none
    parsed := none
    writeFilesOk := false
    publicUrl := none
    builtPreviewUrl := none
    putOk := false }

/-- Environment where every generation stage succeeds but the final record
PUT fails. -/
def envRecordFail : GenEnv :=
  { getProject := some projNoUrl
    frontendText := some "raw model output"
    parsed := some { structureDesc := "structure"
                     codeFiles := [{ path := "index.html", content := "<html>" }] }
    writeFilesOk := true
    publicUrl := some "https://zip.example/42"
    builtPreviewUrl := some "https://preview.example/42"
    putOk := false }

/-- Environment failing at the generate stage. -/
def envGenFail : GenEnv :=
  { getProject := some projNoUrl
    frontendText := none
    parsed := none
    writeFilesOk := false
    publicUrl := none
    builtPreviewUrl := none
    putOk := false }

/-- Environment failing at the build/deploy stage. -/
def envBuildFail : GenEnv :=
  { getProject := some projNoUrl
    frontendText := some "raw model output"
    parsed := some { structureDesc := "structure"
                     codeFiles := [{ path := "index.html", content := "<html>" }] }
    writeFilesOk := true
    publicUrl := some "https://zip.example/42"
    builtPreviewUrl := none
    putOk := false }

/-- Modification-pipeline environment whose rewrite stage returns a JSON
array with one item that has a `path` but no `content` field. -/
def envMalformedModify : SubmitEnv :=
  { now := 5
    analysisText := some "analysis"
    filesToChange := some [{ path := "src/App.tsx", content := "old source" }]
    modifyJson := some (some (Json.arr [Json.obj [("path", Json.str "src/App.tsx")]]))
    writeFilesOk := true }

/-- A session state with a live deployed preview and a pending requirement. -/
def stateWithPrompt : ChatState :=
  { initState with prompt := "add a dark mode toggle"
                   previewUrl := "https://preview.example/42"
                   projectStatus := ProjectStatus.ready }

/-! ## C1: short-circuit idempotency of `generate` -/

/-- C1: for a project whose stored record carries a deployment URL,
`generateCode` with that project's id returns the recorded URL, reaches
`ready`, and invokes none of the generation / write / package / build
stages (only the short-circuit GET). -/
theorem generate_short_circuit_idempotent
    (env : GenEnv) (userPrompt : String) (pid : Nat) (s : ChatState)
    (proj : Project) (url : String)
    (hGuard : s.isGenerating = false) (hPid : pid ≠ 0)
    (hGet : env.getProject = some proj)
    (hUrl : proj.deploymentUrl = some url) (hNe : url ≠ "") :
    (generateCode userPrompt (some pid) env s).state.previewUrl = url ∧
    (generateCode userPrompt (some pid) env s).state.projectStatus = ProjectStatus.ready ∧
    (generateCode userPrompt (some pid) env s).trace = [Stage.shortCircuitCheck] ∧
    Stage.generate ∉ (generateCode userPrompt (some pid) env s).trace ∧
    Stage.writeFiles ∉ (generateCode userPrompt (some pid) env s).trace ∧
    Stage.package ∉ (generateCode userPrompt (some pid) env s).trace ∧
    Stage.buildDeploy ∉ (generateCode userPrompt (some pid) env s).trace := by
  simp [generateCode, hGuard, hGet, hUrl, hNe, hPid, optNatTruthy, optStrTruthy, strTruthy]

/-- C1 witness at a concrete project record. -/
theorem generate_short_circuit_idempotent_witness :
    initState.isGenerating = false ∧ (7 : Nat) ≠ 0 ∧
    envShortCircuit.getProject = some projWithUrl ∧
    projWithUrl.deploymentUrl = some "https://preview.example/7" ∧
    (generateCode "anything" (some 7) envShortCircuit initState).state.previewUrl =
      "https://preview.example/7" ∧
    (generateCode "anything" (some 7) envShortCircuit initState).state.projectStatus =
      ProjectStatus.ready ∧
    (generateCode "anything" (some 7) envShortCircuit initState).trace =
      [Stage.shortCircuitCheck] := by
  refine ⟨rfl, by decide, rfl, rfl, ?_, ?_, ?_⟩
  · exact (generate_short_circuit_idempotent envShortCircuit "anything" 7 initState
      projWithUrl "https://preview.example/7" rfl (by decide) rfl rfl (by decide)).1
  · exact (generate_short_circuit_idempotent envShortCircuit "anything" 7 initState
      projWithUrl "https://preview.example/7" rfl (by decide) rfl rfl (by decide)).2.1
  · exact (generate_short_circuit_idempotent envShortCircuit "anything" 7 initState
      projWithUrl "https://preview.example/7" rfl (by decide) rfl rfl (by decide)).2.2.1

/-! ## C4: the dedup guard -/

/-- Every exit of the main pipeline goes through the `finally` block, so
the `isGenerating` guard ends up cleared. -/
theorem generateMain_releases_guard (projId : Option Nat) (env : GenEnv) (s : ChatState)
    (tr : List Stage) (st : List ProjectStatus) (er : List String) :
    (generateMain projId env s tr st er).state.isGenerating = false := by
  unfold generateMain
  rcases env with ⟨gp, ft, pr, wf, pu, bu, po⟩
  rcases ft with _ | t
  · rfl
  · rcases pr with _ | p
    · rfl
    · dsimp only
      split
      · rcases pu with _ | z
        · rfl
        · rcases bu with _ | b
          · rfl
          · dsimp only
            split
            · split <;> rfl
            · rfl
      · rfl

/-- C4: a `generateCode` call arriving while the guard is set is absorbed
with no stage invocation, no status change and no error; an admitted call
always ends with the guard released, whatever the outcome. -/
theorem dedup_guard_absorbs_and_releases
    (env : GenEnv) (userPrompt : String) (projId : Option Nat) (s : ChatState) :
    (s.isGenerating = true →
      (generateCode userPrompt projId env s).state = s ∧
      (generateCode userPrompt projId env s).trace = [] ∧
      (generateCode userPrompt projId env s).statusTrace = [] ∧
      (generateCode userPrompt projId env s).errorEvents = []) ∧
    (s.isGenerating = false →
      (generateCode userPrompt projId env s).state.isGenerating = false) := by
  constructor
  · intro h
    simp [generateCode, h]
  · intro h
    unfold generateCode
    rw [if_neg (by simp [h])]
    dsimp only
    split
    · split
      · rfl
      · split
        · rfl
        · exact generateMain_releases_guard ..
    · exact generateMain_releases_guard ..

/-- C4 witness: a duplicate call is absorbed, and an admitted failing run
still releases the guard. -/
theorem dedup_guard_absorbs_and_releases_witness :
    ({ initState with isGenerating := true }.isGenerating = true ∧
      (generateCode "p" (some 42) envGenFail { initState with isGenerating := true }).state =
        { initState with isGenerating := true } ∧
      (generateCode "p" (some 42) envGenFail { initState with isGenerating := true }).trace = []) ∧
    (initState.isGenerating = false ∧
      (generateCode "p" (some 42) envGenFail initState).state.isGenerating = false) := by
  constructor
  · refine ⟨rfl, ?_, ?_⟩
    · exact ((dedup_guard_absorbs_and_releases envGenFail "p" (some 42)
        { initState with isGenerating := true }).1 rfl).1
    · exact ((dedup_guard_absorbs_and_releases envGenFail "p" (some 42)
        { initState with isGenerating := true }).1 rfl).2.1
  · exact ⟨rfl, (dedup_guard_absorbs_and_releases envGenFail "p" (some 42) initState).2 rfl⟩

/-! ## C5: applyChange frame conditions -/

/-- C5: `handleSubmit` never changes the displayed preview URL or the
display status, never issues the package or build/deploy calls, and never
issues the project-store update (the `record` PUT) - so the recorded
deployment URL and persisted status are untouched, on success and on
failure alike. -/
theorem applyChange_frame (env : SubmitEnv) (s : ChatState) :
    (handleSubmit env s).state.previewUrl = s.previewUrl ∧
    (handleSubmit env s).state.projectStatus = s.projectStatus ∧
    Stage.package ∉ (handleSubmit env s).trace ∧
    Stage.buildDeploy ∉ (handleSubmit env s).trace ∧
    Stage.record ∉ (handleSubmit env s).trace ∧
    Stage.shortCircuitCheck ∉ (handleSubmit env s).trace := by
  unfold handleSubmit
  split
  · simp
  · rcases env with ⟨now, an, ftc, mj, wok⟩
    dsimp only
    rcases an with _ | a
    · simp [submitCatch]
    · rcases ftc with _ | f
      · simp [submitCatch]
      · rcases mj with _ | mp
        · simp [submitCatch]
        · rcases mp with _ | j
          · simp [submitCatch]
          · dsimp only
            split
            · simp [submitCatch]
            · split <;> simp [submitCatch]

/-! ## C10: the applyChange no-op guard -/

/-- C10: `handleSubmit` with an empty (or whitespace-only) requirement, or
while a previous modification is in flight, returns at once: no stage is
invoked, no message is appended, nothing in the state changes. -/
theorem applyChange_noop_guard (env : SubmitEnv) (s : ChatState)
    (h : jsTrim s.prompt = "" ∨ s.isLoading = true) :
    handleSubmit env s =
      { state := s, trace := [], errorEvents := [], writeFilesPayload := none } := by
  unfold handleSubmit
  rw [if_pos h]

/-- C10 witness: a whitespace-only prompt is rejected without any effect. -/
theorem applyChange_noop_guard_witness :
    (jsTrim { initState with prompt := "   " }.prompt = "" ∨
      { initState with prompt := "   " }.isLoading = true) ∧
    handleSubmit envMalformedModify { initState with prompt := "   " } =
      { state := { initState with prompt := "   " }, trace := [], errorEvents := [],
        writeFilesPayload := none } :=
  ⟨Or.inl (by decide), applyChange_noop_guard envMalformedModify
    { initState with prompt := "   " } (Or.inl (by decide))⟩

/-! ## Helper lemmas about the main generation pipeline -/

/-- The stages invoked by the main pipeline always form a prefix of the
full generation sequence (appended to the stages already recorded). -/
theorem generateMain_trace_prefix (projId : Option Nat) (env : GenEnv) (s : ChatState)
    (tr : List Stage) (st : List ProjectStatus) (er : List String) :
    ∃ k, (generateMain projId env s tr st er).trace = tr ++ fullGenSequence.take k := by
  unfold generateMain
  rcases env with ⟨gp, ft, pr, wf, pu, bu, po⟩
  rcases ft with _ | t
  · exact ⟨1, by simp [finallyGen, catchGen, fullGenSequence]⟩
  · rcases pr with _ | p
    · exact ⟨2, by simp [finallyGen, catchGen, fullGenSequence]⟩
    · dsimp only
      split
      · rcases pu with _ | z
        · exact ⟨5, by simp [finallyGen, catchGen, fullGenSequence]⟩
        · rcases bu with _ | b
          · exact ⟨6, by simp [finallyGen, catchGen, fullGenSequence]⟩
          · dsimp only
            split
            · split
              · exact ⟨7, by simp [finallyGen, fullGenSequence]⟩
              · exact ⟨7, by simp [finallyGen, catchGen, fullGenSequence]⟩
            · exact ⟨6, by simp [finallyGen, fullGenSequence]⟩
      · exact ⟨4, by simp [finallyGen, catchGen, fullGenSequence]⟩

/-- When the environment makes some stage fail, the main pipeline ends in
the catch block: status `error`, the generic message recorded once, the
failing stage invoked last (no stage beyond it is invoked). -/
theorem generateMain_fail (projId : Option Nat) (env : GenEnv) (s : ChatState)
    (tr : List Stage) (st : List ProjectStatus) (er : List String)
    (st0 : Stage) (hFail : genFirstFailure env projId = some st0) :
    (generateMain projId env s tr st er).state.projectStatus = ProjectStatus.error ∧
    (generateMain projId env s tr st er).state.error = failedGenerateMsg ∧
    (generateMain projId env s tr st er).errorEvents = er ++ [failedGenerateMsg] ∧
    st0 ∈ (generateMain projId env s tr st er).trace ∧
    ∀ st2, stageIdx st0 < stageIdx st2 → st2 ∉ tr →
      st2 ∉ (generateMain projId env s tr st er).trace := by
  unfold generateMain genFirstFailure at *
  rcases env with ⟨gp, ft, pr, wf, pu, bu, po⟩
  rcases ft with _ | t
  · dsimp only at hFail ⊢
    injection hFail with h; subst h
    refine ⟨rfl, rfl, rfl, by simp [finallyGen, catchGen], ?_⟩
    intro st2 hlt htr hmem
    simp only [finallyGen, catchGen, List.append_assoc, List.mem_append] at hmem
    rcases hmem with h | h
    · exact htr h
    · cases st2 <;> simp_all [stageIdx]
  · rcases pr with _ | p
    · dsimp only at hFail ⊢
      injection hFail with h; subst h
      refine ⟨rfl, rfl, rfl, by simp [finallyGen, catchGen], ?_⟩
      intro st2 hlt htr hmem
      simp only [finallyGen, catchGen, List.append_assoc, List.mem_append] at hmem
      rcases hmem with h | h
      · exact htr h
      · cases st2 <;> simp_all [stageIdx]
    · dsimp only at hFail ⊢
      rcases wf with _ | _
      · simp only [Bool.false_eq_true, if_false] at hFail ⊢
        injection hFail with h; subst h
        refine ⟨rfl, rfl, rfl, by simp [finallyGen, catchGen], ?_⟩
        intro st2 hlt htr hmem
        simp only [finallyGen, catchGen, List.append_assoc, List.mem_append] at hmem
        rcases hmem with h | h
        · exact htr h
        · cases st2 <;> simp_all [stageIdx]
      · simp only [if_true] at hFail ⊢
        rcases pu with _ | z
        · injection hFail with h; subst h
          refine ⟨rfl, rfl, rfl, by simp [finallyGen, catchGen], ?_⟩
          intro st2 hlt htr hmem
          simp only [finallyGen, catchGen, List.append_assoc, List.mem_append] at hmem
          rcases hmem with h | h
          · exact htr h
          · cases st2 <;> simp_all [stageIdx]
        · rcases bu with _ | b
          · injection hFail with h; subst h
            refine ⟨rfl, rfl, rfl, by simp [finallyGen, catchGen], ?_⟩
            intro st2 hlt htr hmem
            simp only [finallyGen, catchGen, List.append_assoc, List.mem_append] at hmem
            rcases hmem with h | h
            · exact htr h
            · cases st2 <;> simp_all [stageIdx]
          · dsimp only at hFail ⊢
            by_cases htru : (optNatTruthy projId && strTruthy b) = true
            · rw [if_pos htru] at hFail ⊢
              rcases po with _ | _
              · simp only [Bool.false_eq_true, if_false] at hFail ⊢
                injection hFail with h; subst h
                refine ⟨rfl, rfl, rfl, by simp [finallyGen, catchGen], ?_⟩
                intro st2 hlt htr hmem
                simp only [finallyGen, catchGen, List.append_assoc, List.mem_append] at hmem
                rcases hmem with h | h
                · exact htr h
                · cases st2 <;> simp_all [stageIdx]
              · simp only [if_true] at hFail
                exact absurd hFail (by simp)
            · rw [if_neg htru] at hFail ⊢
              exact absurd hFail (by simp)

/-- When every service succeeds and the record stage applies, the main
pipeline invokes the full sequence, ends `ready`, and records no error. -/
theorem generateMain_all_ok (projId : Option Nat) (env : GenEnv) (s : ChatState)
    (tr : List Stage) (st : List ProjectStatus) (er : List String) (u : String)
    (hGen : env.frontendText.isSome = true) (hParse : env.parsed.isSome = true)
    (hWrite : env.writeFilesOk = true) (hZip : env.publicUrl.isSome = true)
    (hBuild : env.builtPreviewUrl = some u)
    (hTruthy : (optNatTruthy projId && strTruthy u) = true)
    (hPut : env.putOk = true) :
    (generateMain projId env s tr st er).trace = tr ++ fullGenSequence ∧
    (generateMain projId env s tr st er).state.projectStatus = ProjectStatus.ready ∧
    (generateMain projId env s tr st er).state.previewUrl = u ∧
    (generateMain projId env s tr st er).statusTrace = st ++ [ProjectStatus.ready] ∧
    (generateMain projId env s tr st er).errorEvents = er := by
  obtain ⟨t, hft⟩ := Option.isSome_iff_exists.1 hGen
  obtain ⟨p, hpr⟩ := Option.isSome_iff_exists.1 hParse
  obtain ⟨z, hpu⟩ := Option.isSome_iff_exists.1 hZip
  simp [generateMain, hft, hpr, hWrite, hpu, hBuild, hTruthy, hPut,
    finallyGen, fullGenSequence]

/-- When every stage through build/deploy succeeds but the record PUT
fails, the main pipeline keeps the built preview URL yet ends in the catch
block: status flips `ready → error` and the generic message is recorded. -/
theorem generateMain_record_fail (projId : Option Nat) (env : GenEnv) (s : ChatState)
    (tr : List Stage) (st : List ProjectStatus) (er : List String) (u : String)
    (hGen : env.frontendText.isSome = true) (hParse : env.parsed.isSome = true)
    (hWrite : env.writeFilesOk = true) (hZip : env.publicUrl.isSome = true)
    (hBuild : env.builtPreviewUrl = some u)
    (hTruthy : (optNatTruthy projId && strTruthy u) = true)
    (hPut : env.putOk = false) :
    (generateMain projId env s tr st er).state.previewUrl = u ∧
    (generateMain projId env s tr st er).state.projectStatus = ProjectStatus.error ∧
    (generateMain projId env s tr st er).state.error = failedGenerateMsg ∧
    (generateMain projId env s tr st er).statusTrace =
      st ++ [ProjectStatus.ready, ProjectStatus.error] ∧
    (generateMain projId env s tr st er).errorEvents = er ++ [failedGenerateMsg] ∧
    (generateMain projId env s tr st er).trace = tr ++ fullGenSequence := by
  obtain ⟨t, hft⟩ := Option.isSome_iff_exists.1 hGen
  obtain ⟨p, hpr⟩ := Option.isSome_iff_exists.1 hParse
  obtain ⟨z, hpu⟩ := Option.isSome_iff_exists.1 hZip
  simp [generateMain, hft, hpr, hWrite, hpu, hBuild, hTruthy, hPut,
    finallyGen, catchGen, fullGenSequence]

/-- When the short-circuit check does not fire (no truthy project id, or a
stored record without a truthy deployment URL), `generateCode` runs the
main pipeline on the loading state, with the short-circuit GET recorded
exactly when a truthy id was given. -/
theorem generateCode_no_short_circuit
    (env : GenEnv) (userPrompt : String) (projId : Option Nat) (s : ChatState)
    (hGuard : s.isGenerating = false)
    (hNoSC : optNatTruthy projId = false ∨
      ∃ proj, env.getProject = some proj ∧ optStrTruthy proj.deploymentUrl = false) :
    ∃ tr0, (tr0 = [] ∨ tr0 = [Stage.shortCircuitCheck]) ∧
      generateCode userPrompt projId env s =
        generateMain projId env
          { s with isGenerating := true, loadingCode := true,
                   error := "", projectStatus := ProjectStatus.loading }
          tr0 [ProjectStatus.loading] [""] := by
  by_cases hTruthy : optNatTruthy projId = true
  · rcases hNoSC with hN | ⟨proj, hGet, hUrl⟩
    · rw [hTruthy] at hN; exact absurd hN (by simp)
    · refine ⟨[Stage.shortCircuitCheck], Or.inr rfl, ?_⟩
      unfold generateCode
      rw [if_neg (by simp [hGuard]), if_pos hTruthy, hGet]
      dsimp only
      rw [if_neg (by simp [hUrl])]
  · refine ⟨[], Or.inl rfl, ?_⟩
    unfold generateCode
    rw [if_neg (by simp [hGuard]), if_neg hTruthy]

/-! ## C6: write failure aborts package and build -/

/-- C6: if the write-files call fails (after generation and parsing
succeeded and without a short-circuit), the run ends with status `error`
and the package and build/deploy services are never invoked. -/
theorem write_failure_aborts_build
    (env : GenEnv) (userPrompt : String) (projId : Option Nat) (s : ChatState)
    (hGuard : s.isGenerating = false)
    (hNoSC : optNatTruthy projId = false ∨
      ∃ proj, env.getProject = some proj ∧ optStrTruthy proj.deploymentUrl = false)
    (hGen : env.frontendText.isSome = true) (hParse : env.parsed.isSome = true)
    (hWrite : env.writeFilesOk = false) :
    (generateCode userPrompt projId env s).state.projectStatus = ProjectStatus.error ∧
    Stage.package ∉ (generateCode userPrompt projId env s).trace ∧
    Stage.buildDeploy ∉ (generateCode userPrompt projId env s).trace ∧
    Stage.record ∉ (generateCode userPrompt projId env s).trace := by
  obtain ⟨tr0, htr0, heq⟩ := generateCode_no_short_circuit env userPrompt projId s hGuard hNoSC
  obtain ⟨t, hft⟩ := Option.isSome_iff_exists.1 hGen
  obtain ⟨p, hpr⟩ := Option.isSome_iff_exists.1 hParse
  have hFail : genFirstFailure env projId = some Stage.writeFiles := by
    simp [genFirstFailure, hft, hpr, hWrite]
  have hm := generateMain_fail projId env
    { s with isGenerating := true, loadingCode := true,
             error := "", projectStatus := ProjectStatus.loading }
    tr0 [ProjectStatus.loading] [""] Stage.writeFiles hFail
  rw [heq]
  refine ⟨hm.1, ?_, ?_, ?_⟩
  · exact hm.2.2.2.2 Stage.package (by decide)
      (by rcases htr0 with h | h <;> subst h <;> decide)
  · exact hm.2.2.2.2 Stage.buildDeploy (by decide)
      (by rcases htr0 with h | h <;> subst h <;> decide)
  · exact hm.2.2.2.2 Stage.record (by decide)
      (by rcases htr0 with h | h <;> subst h <;> decide)

/-- C6 witness: generation parses but the write service fails. -/
theorem write_failure_aborts_build_witness :
    envBuildFail.writeFilesOk = true ∧
    ({ envBuildFail with writeFilesOk := false }).frontendText.isSome = true ∧
    (generateCode "p" (some 42) { envBuildFail with writeFilesOk := false }
      initState).state.projectStatus = ProjectStatus.error ∧
    Stage.package ∉ (generateCode "p" (some 42) { envBuildFail with writeFilesOk := false }
      initState).trace ∧
    Stage.buildDeploy ∉ (generateCode "p" (some 42) { envBuildFail with writeFilesOk := false }
      initState).trace := by
  have h := write_failure_aborts_build { envBuildFail with writeFilesOk := false }
    "p" (some 42) initState rfl
    (Or.inr ⟨projNoUrl, rfl, by decide⟩) rfl rfl rfl
  exact ⟨rfl, rfl, h.1, h.2.1, h.2.2.1⟩

/-! ## C7: fixed stage order of the generation pipeline -/

/-- C7: past the short-circuit check, the invoked stages always form a
prefix of generate → parse → persist structure → write files → package →
build/deploy → record, and when every service succeeds (and the built URL
is non-empty, so the record stage applies) the full sequence is invoked in
that order with nothing skipped. -/
theorem generate_stage_order
    (env : GenEnv) (userPrompt : String) (pid : Nat) (proj : Project) (s : ChatState)
    (hGuard : s.isGenerating = false) (hPid : pid ≠ 0)
    (hGet : env.getProject = some proj)
    (hNoUrl : optStrTruthy proj.deploymentUrl = false) :
    (∃ k, (generateCode userPrompt (some pid) env s).trace =
      Stage.shortCircuitCheck :: fullGenSequence.take k) ∧
    (genAllOk env → (∀ u, env.builtPreviewUrl = some u → u ≠ "") →
      (generateCode userPrompt (some pid) env s).trace =
        Stage.shortCircuitCheck :: fullGenSequence) := by
  obtain ⟨tr0, htr0, heq⟩ := generateCode_no_short_circuit env userPrompt (some pid) s hGuard
    (Or.inr ⟨proj, hGet, hNoUrl⟩)
  have htr0' : tr0 = [Stage.shortCircuitCheck] := by
    rcases htr0 with h | h
    · subst h
      exfalso
      revert heq
      unfold generateCode
      rw [if_neg (by simp [hGuard]), if_pos (by simp [optNatTruthy, hPid]), hGet]
      dsimp only
      rw [if_neg (by simp [hNoUrl])]
      intro heq
      have := congrArg GenResult.trace heq
      have h1 := generateMain_trace_prefix (some pid) env
        { s with isGenerating := true, loadingCode := true,
                 error := "", projectStatus := ProjectStatus.loading }
        [Stage.shortCircuitCheck] [ProjectStatus.loading] [""]
      have h2 := generateMain_trace_prefix (some pid) env
        { s with isGenerating := true, loadingCode := true,
                 error := "", projectStatus := ProjectStatus.loading }
        [] [ProjectStatus.loading] [""]
      obtain ⟨k1, hk1⟩ := h1
      obtain ⟨k2, hk2⟩ := h2
      rw [hk1, hk2] at this
      have : Stage.shortCircuitCheck ∈ fullGenSequence.take k2 := by
        have h3 : Stage.shortCircuitCheck ∈ ([] : List Stage) ++ fullGenSequence.take k2 := by
          rw [← this]; simp
        simpa using h3
      have hsub : fullGenSequence.take k2 ⊆ fullGenSequence := List.take_subset ..
      have := hsub this
      simp [fullGenSequence] at this
    · exact h
  subst htr0'
  rw [heq]
  constructor
  · obtain ⟨k, hk⟩ := generateMain_trace_prefix (some pid) env
      { s with isGenerating := true, loadingCode := true,
               error := "", projectStatus := ProjectStatus.loading }
      [Stage.shortCircuitCheck] [ProjectStatus.loading] [""]
    exact ⟨k, by simpa using hk⟩
  · rintro ⟨hGen, hParse, hWrite, hZip, hBuild, hPut⟩ hU
    obtain ⟨u, hbu⟩ := Option.isSome_iff_exists.1 hBuild
    have hTruthy : (optNatTruthy (some pid) && strTruthy u) = true := by
      simp [optNatTruthy, strTruthy, hPid, hU u hbu]
    have := generateMain_all_ok (some pid) env
      { s with isGenerating := true, loadingCode := true,
               error := "", projectStatus := ProjectStatus.loading }
      [Stage.shortCircuitCheck] [ProjectStatus.loading] [""] u
      hGen hParse hWrite hZip hbu hTruthy hPut
    simpa using this.1

/-- C7 witness: a fully-succeeding run invokes all seven stages in order. -/
theorem generate_stage_order_witness :
    genAllOk { envRecordFail with putOk := true } ∧
    (generateCode "build a todo app" (some 42) { envRecordFail with putOk := true }
      initState).trace = Stage.shortCircuitCheck :: fullGenSequence := by
  have h := generate_stage_order { envRecordFail with putOk := true }
    "build a todo app" 42 projNoUrl initState rfl (by decide) rfl (by decide)
  refine ⟨⟨rfl, rfl, rfl, rfl, rfl, rfl⟩, ?_⟩
  exact h.2 ⟨rfl, rfl, rfl, rfl, rfl, rfl⟩ (by intro u hu; injection hu with h2; subst h2; decide)

/-! ## C8: failure handling (corrected: the failure does not name the stage) -/

/-- C8 counterexample: two runs failing at different stages (the generate
call vs the build/deploy call) surface exactly the same user-visible
failure - same error string, same `setError` events, same status - so the
surfaced failure does not identify which stage failed. -/
theorem failure_not_stage_identifying_counterexample :
    (generateCode "p" (some 42) envGenFail initState).trace ≠
      (generateCode "p" (some 42) envBuildFail initState).trace ∧
    (generateCode "p" (some 42) envGenFail initState).state.projectStatus =
      ProjectStatus.error ∧
    (generateCode "p" (some 42) envBuildFail initState).state.projectStatus =
      ProjectStatus.error ∧
    (generateCode "p" (some 42) envGenFail initState).state.error =
      (generateCode "p" (some 42) envBuildFail initState).state.error ∧
    (generateCode "p" (some 42) envGenFail initState).errorEvents =
      (generateCode "p" (some 42) envBuildFail initState).errorEvents := by
  decide

/-- C8 as amended: any stage failure aborts all remaining stages (nothing
past the failing stage is invoked), sets status `error`, and surfaces
exactly one human-readable message - but that message is the one generic
string, not a typed failure identifying the stage. -/
theorem generate_failure_single_generic_message
    (env : GenEnv) (userPrompt : String) (projId : Option Nat) (s : ChatState) (st0 : Stage)
    (hGuard : s.isGenerating = false)
    (hNoSC : optNatTruthy projId = false ∨
      ∃ proj, env.getProject = some proj ∧ optStrTruthy proj.deploymentUrl = false)
    (hFail : genFirstFailure env projId = some st0) :
    (generateCode userPrompt projId env s).state.projectStatus = ProjectStatus.error ∧
    (generateCode userPrompt projId env s).state.error = failedGenerateMsg ∧
    (generateCode userPrompt projId env s).errorEvents = ["", failedGenerateMsg] ∧
    st0 ∈ (generateCode userPrompt projId env s).trace ∧
    ∀ st2, stageIdx st0 < stageIdx st2 →
      st2 ∉ (generateCode userPrompt projId env s).trace := by
  obtain ⟨tr0, htr0, heq⟩ := generateCode_no_short_circuit env userPrompt projId s hGuard hNoSC
  have hm := generateMain_fail projId env
    { s with isGenerating := true, loadingCode := true,
             error := "", projectStatus := ProjectStatus.loading }
    tr0 [ProjectStatus.loading] [""] st0 hFail
  rw [heq]
  refine ⟨hm.1, hm.2.1, hm.2.2.1, hm.2.2.2.1, ?_⟩
  intro st2 hlt
  refine hm.2.2.2.2 st2 hlt ?_
  rcases htr0 with h | h <;> subst h
  · simp
  · intro hmem
    simp at hmem
    subst hmem
    simp [stageIdx] at hlt

/-- C8 amended witness: a run whose build/deploy call fails. -/
theorem generate_failure_single_generic_message_witness :
    genFirstFailure envBuildFail (some 42) = some Stage.buildDeploy ∧
    (generateCode "p" (some 42) envBuildFail initState).state.error = failedGenerateMsg ∧
    (generateCode "p" (some 42) envBuildFail initState).errorEvents =
      ["", failedGenerateMsg] ∧
    Stage.buildDeploy ∈ (generateCode "p" (some 42) envBuildFail initState).trace ∧
    Stage.record ∉ (generateCode "p" (some 42) envBuildFail initState).trace := by
  have h := generate_failure_single_generic_message envBuildFail "p" (some 42) initState
    Stage.buildDeploy rfl (Or.inr ⟨projNoUrl, rfl, by decide⟩) (by decide)
  exact ⟨by decide, h.2.1, h.2.2.1, h.2.2.2.1, h.2.2.2.2 Stage.record (by decide)⟩

/-! ## C3: recording failure (corrected: it is surfaced as pipeline failure) -/

/-- C3 counterexample: all stages through build/deploy succeed and only
the final record PUT fails; the run ends with status `error` and the same
user-facing failure message as any stage failure (the in-memory preview
URL does keep the deployed URL), so success is not reported and the
recording failure is not confined to a side channel. -/
theorem record_failure_reports_error_counterexample :
    (generateCode "build a todo app" (some 42) envRecordFail initState).state.projectStatus =
      ProjectStatus.error ∧
    (generateCode "build a todo app" (some 42) envRecordFail initState).state.error =
      failedGenerateMsg ∧
    (generateCode "build a todo app" (some 42) envRecordFail initState).state.previewUrl =
      "https://preview.example/42" ∧
    (generateCode "build a todo app" (some 42) envRecordFail initState).errorEvents =
      ["", failedGenerateMsg] := by
  decide

/-- C3 as amended: when every stage through build/deploy succeeds but the
record step fails, the preview URL keeps the deployed URL, yet the
pipeline reports failure to the caller - status `error` and the generic
user-facing message - rather than success with a side-channel recording
failure. -/
theorem record_failure_surfaces_error
    (env : GenEnv) (userPrompt : String) (pid : Nat) (proj : Project) (s : ChatState)
    (u : String)
    (hGuard : s.isGenerating = false) (hPid : pid ≠ 0)
    (hGet : env.getProject = some proj)
    (hNoUrl : optStrTruthy proj.deploymentUrl = false)
    (hGen : env.frontendText.isSome = true) (hParse : env.parsed.isSome = true)
    (hWrite : env.writeFilesOk = true) (hZip : env.publicUrl.isSome = true)
    (hBuild : env.builtPreviewUrl = some u) (hU : u ≠ "")
    (hPut : env.putOk = false) :
    (generateCode userPrompt (some pid) env s).state.previewUrl = u ∧
    (generateCode userPrompt (some pid) env s).state.projectStatus = ProjectStatus.error ∧
    (generateCode userPrompt (some pid) env s).state.error = failedGenerateMsg ∧
    (generateCode userPrompt (some pid) env s).statusTrace =
      [ProjectStatus.loading, ProjectStatus.ready, ProjectStatus.error] ∧
    (generateCode userPrompt (some pid) env s).errorEvents = ["", failedGenerateMsg] := by
  obtain ⟨tr0, htr0, heq⟩ := generateCode_no_short_circuit env userPrompt (some pid) s hGuard
    (Or.inr ⟨proj, hGet, hNoUrl⟩)
  have hTruthy : (optNatTruthy (some pid) && strTruthy u) = true := by
    simp [optNatTruthy, strTruthy, hPid, hU]
  have hm := generateMain_record_fail (some pid) env
    { s with isGenerating := true, loadingCode := true,
             error := "", projectStatus := ProjectStatus.loading }
    tr0 [ProjectStatus.loading] [""] u hGen hParse hWrite hZip hBuild hTruthy hPut
  rw [heq]
  exact ⟨hm.1, hm.2.1, hm.2.2.1, hm.2.2.2.1, hm.2.2.2.2.1⟩

/-- C3 amended witness at the concrete record-failure environment. -/
theorem record_failure_surfaces_error_witness :
    envRecordFail.putOk = false ∧
    (generateCode "build a todo app" (some 42) envRecordFail initState).state.previewUrl =
      "https://preview.example/42" ∧
    (generateCode "build a todo app" (some 42) envRecordFail initState).state.projectStatus =
      ProjectStatus.error ∧
    (generateCode "build a todo app" (some 42) envRecordFail initState).statusTrace =
      [ProjectStatus.loading, ProjectStatus.ready, ProjectStatus.error] := by
  have h := record_failure_surfaces_error envRecordFail "build a todo app" 42 projNoUrl
    initState "https://preview.example/42" rfl (by decide) rfl (by decide) rfl rfl rfl rfl
    rfl (by decide) rfl
  exact ⟨rfl, h.1, h.2.1, h.2.2.2.1⟩

/-! ## C9: display-state transitions (corrected: ready → error occurs) -/

/-- Every status can (re-)enter `loading` under the amended relation. -/
theorem amendedStep_to_loading (a : ProjectStatus) :
    amendedStep a ProjectStatus.loading = true := by
  cases a <;> rfl

/-- A status chain that starts by entering `loading` continues from
`loading`. -/
theorem chainOk_amended_cons_loading (a : ProjectStatus) (rest : List ProjectStatus) :
    chainOk amendedStep a (ProjectStatus.loading :: rest) =
      chainOk amendedStep ProjectStatus.loading rest := by
  simp [chainOk, amendedStep_to_loading]

/-- The `setProjectStatus` sequences `generateCode` can produce. -/
theorem generateMain_statusTrace_cases (projId : Option Nat) (env : GenEnv) (s : ChatState)
    (tr : List Stage) (st : List ProjectStatus) (er : List String) :
    (generateMain projId env s tr st er).statusTrace = st ++ [ProjectStatus.error] ∨
    (generateMain projId env s tr st er).statusTrace = st ++ [ProjectStatus.ready] ∨
    (generateMain projId env s tr st er).statusTrace =
      st ++ [ProjectStatus.ready, ProjectStatus.error] := by
  unfold generateMain
  rcases env with ⟨gp, ft, pr, wf, pu, bu, po⟩
  rcases ft with _ | t
  · exact Or.inl (by simp [finallyGen, catchGen])
  · rcases pr with _ | p
    · exact Or.inl (by simp [finallyGen, catchGen])
    · dsimp only
      split
      · rcases pu with _ | z
        · exact Or.inl (by simp [finallyGen, catchGen])
        · rcases bu with _ | b
          · exact Or.inl (by simp [finallyGen, catchGen])
          · dsimp only
            split
            · split
              · exact Or.inr (Or.inl (by simp [finallyGen]))
              · exact Or.inr (Or.inr (by simp [finallyGen, catchGen]))
            · exact Or.inr (Or.inl (by simp [finallyGen]))
      · exact Or.inl (by simp [finallyGen, catchGen])

/-- The `setProjectStatus` sequences one `generateCode` command can emit. -/
theorem generateCode_statusTrace_cases
    (env : GenEnv) (userPrompt : String) (projId : Option Nat) (s : ChatState) :
    (generateCode userPrompt projId env s).statusTrace = [] ∨
    (generateCode userPrompt projId env s).statusTrace =
      [ProjectStatus.loading, ProjectStatus.ready] ∨
    (generateCode userPrompt projId env s).statusTrace =
      [ProjectStatus.loading, ProjectStatus.error] ∨
    (generateCode userPrompt projId env s).statusTrace =
      [ProjectStatus.loading, ProjectStatus.ready, ProjectStatus.error] := by
  unfold generateCode
  split
  · exact Or.inl rfl
  · have main : ∀ tr0,
        (generateMain projId env
          { s with isGenerating := true, loadingCode := true,
                   error := "", projectStatus := ProjectStatus.loading }
          tr0 [ProjectStatus.loading] [""]).statusTrace =
            [ProjectStatus.loading, ProjectStatus.error] ∨
        (generateMain projId env
          { s with isGenerating := true, loadingCode := true,
                   error := "", projectStatus := ProjectStatus.loading }
          tr0 [ProjectStatus.loading] [""]).statusTrace =
            [ProjectStatus.loading, ProjectStatus.ready] ∨
        (generateMain projId env
          { s with isGenerating := true, loadingCode := true,
                   error := "", projectStatus := ProjectStatus.loading }
          tr0 [ProjectStatus.loading] [""]).statusTrace =
            [ProjectStatus.loading, ProjectStatus.ready, ProjectStatus.error] := by
      intro tr0
      have h := generateMain_statusTrace_cases projId env
        { s with isGenerating := true, loadingCode := true,
                 error := "", projectStatus := ProjectStatus.loading }
        tr0 [ProjectStatus.loading] [""]
      simpa using h
    split
    · split
      · exact Or.inr (Or.inr (Or.inl (by simp [finallyGen, catchGen])))
      · split
        · exact Or.inr (Or.inl rfl)
        · rcases main [Stage.shortCircuitCheck] with h | h | h
          · exact Or.inr (Or.inr (Or.inl h))
          · exact Or.inr (Or.inl h)
          · exact Or.inr (Or.inr (Or.inr h))
    · rcases main [] with h | h | h
      · exact Or.inr (Or.inr (Or.inl h))
      · exact Or.inr (Or.inl h)
      · exact Or.inr (Or.inr (Or.inr h))

/-- The `setProjectStatus` sequences one `fetchProjectDeploymentUrl`
command can emit. -/
theorem fetch_statusTrace_cases (projId : Nat) (env : FetchEnv) (s : ChatState) :
    (fetchProjectDeploymentUrl projId env s).statusTrace = [] ∨
    (fetchProjectDeploymentUrl projId env s).statusTrace =
      [ProjectStatus.loading, ProjectStatus.ready] ∨
    (fetchProjectDeploymentUrl projId env s).statusTrace =
      [ProjectStatus.loading, ProjectStatus.error] := by
  unfold fetchProjectDeploymentUrl
  split
  · exact Or.inl rfl
  · rcases env with ⟨gp⟩
    rcases gp with _ | proj
    · exact Or.inr (Or.inr rfl)
    · dsimp only
      split
      · exact Or.inr (Or.inl rfl)
      · exact Or.inr (Or.inr rfl)

/-- `handleSubmit` never calls `setProjectStatus`. -/
theorem handleSubmit_preserves_status (env : SubmitEnv) (s : ChatState) :
    (handleSubmit env s).state.projectStatus = s.projectStatus := by
  unfold handleSubmit
  split
  · rfl
  · rcases env with ⟨now, an, ftc, mj, wok⟩
    dsimp only
    rcases an with _ | a
    · simp [submitCatch]
    · rcases ftc with _ | f
      · simp [submitCatch]
      · rcases mj with _ | mp
        · simp [submitCatch]
        · rcases mp with _ | j
          · simp [submitCatch]
          · dsimp only
            split
            · simp [submitCatch]
            · split <;> simp [submitCatch]

/-- C9 counterexample: a generate run whose record step fails drives the
display state `loading → ready → error`; the `ready → error` step is not
among the claimed transitions. -/
theorem status_transition_claim_counterexample :
    chainOk claimStep initState.projectStatus
      (generateCode "build a todo app" (some 42) envRecordFail initState).statusTrace =
      false := by
  decide

/-- C9 as amended: across all three commands, the display state only
transitions along idle → loading → ready / error, with ready / error
re-entering loading on a new command, plus the one extra transition
ready → error taken within a generate run when the record step fails after
deployment. -/
theorem status_transitions_amended :
    (∀ (env : GenEnv) (userPrompt : String) (projId : Option Nat) (s : ChatState),
      chainOk amendedStep s.projectStatus
        (generateCode userPrompt projId env s).statusTrace = true) ∧
    (∀ (env : FetchEnv) (pid : Nat) (s : ChatState),
      chainOk amendedStep s.projectStatus
        (fetchProjectDeploymentUrl pid env s).statusTrace = true) ∧
    (∀ (env : SubmitEnv) (s : ChatState),
      (handleSubmit env s).state.projectStatus = s.projectStatus) := by
  refine ⟨?_, ?_, ?_⟩
  · intro env userPrompt projId s
    rcases generateCode_statusTrace_cases env userPrompt projId s with h | h | h | h <;>
      rw [h] <;> first
      | rfl
      | (rw [chainOk_amended_cons_loading]; decide)
  · intro env pid s
    rcases fetch_statusTrace_cases pid env s with h | h | h <;>
      rw [h] <;> first
      | rfl
      | (rw [chainOk_amended_cons_loading]; decide)
  · exact handleSubmit_preserves_status

/-! ## C2: rewrite-output parsing (corrected: it is not field-strict) -/

/-- Property access on a non-null JSON value never throws. -/
theorem jsProp_ok (x : Json) (key : String) (h : x.isNull = false) :
    ∃ v, jsProp x key = Except.ok v := by
  cases x with
  | null => simp [Json.isNull] at h
  | bool b => exact ⟨none, rfl⟩
  | num n => exact ⟨none, rfl⟩
  | str s => exact ⟨none, rfl⟩
  | arr xs => exact ⟨none, rfl⟩
  | obj fields => exact ⟨jsonLookup fields key, rfl⟩

/-- Mapping over an array with no null element succeeds, whatever fields
the elements carry or lack. -/
theorem mapResultItems_ok (xs : List Json)
    (h : xs.all (fun x => ! x.isNull) = true) :
    ∃ ys, mapResultItems xs = Except.ok ys := by
  induction xs with
  | nil => exact ⟨[], rfl⟩
  | cons x rest ih =>
    rw [List.all_cons, Bool.and_eq_true] at h
    obtain ⟨hx, hrest⟩ := h
    obtain ⟨p, hp⟩ := jsProp_ok x "path" (by simpa using hx)
    obtain ⟨c, hc⟩ := jsProp_ok x "content" (by simpa using hx)
    obtain ⟨tail, ht⟩ := ih hrest
    refine ⟨{ path := p, content := c } :: tail, ?_⟩
    rw [mapResultItems, hp, hc, ht]

/-- `.map` on a non-array JSON value throws. -/
theorem jsArrayMapItems_not_arr (j : Json) (h : j.isArr = false) :
    jsArrayMapItems j = Except.error () := by
  cases j <;> simp_all [Json.isArr, jsArrayMapItems]

/-- C2 counterexample: the rewrite stage returns a JSON array whose only
item has a `path` but no `content` field; the step does not fail - no
error is set, the success path runs, and the item is submitted to the
write service with its `content` property undefined. -/
theorem modify_malformed_item_still_written_counterexample :
    Stage.writeFiles ∈ (handleSubmit envMalformedModify stateWithPrompt).trace ∧
    (handleSubmit envMalformedModify stateWithPrompt).state.error = "" ∧
    (handleSubmit envMalformedModify stateWithPrompt).errorEvents = [""] ∧
    ((handleSubmit envMalformedModify stateWithPrompt).writeFilesPayload.map
      (fun l => l.map (fun w => (w.path.isSome, w.content.isSome)))) =
      some [(true, false)] ∧
    (handleSubmit envMalformedModify stateWithPrompt).state.previewUrl =
      stateWithPrompt.previewUrl := by
  decide

/-- C2 as amended: parsing of the rewrite output fails the whole step
(error set, nothing submitted to the write service, preview URL unchanged)
when the output is not valid JSON or its value is not an array; but an
array item that merely lacks a `path` or `content` field does not fail the
step - the items (missing fields left undefined) are submitted to the
write service. -/
theorem applyChange_rewrite_parse_lenient
    (env : SubmitEnv) (s : ChatState)
    (hPrompt : jsTrim s.prompt ≠ "") (hLoad : s.isLoading = false)
    (hA : env.analysisText.isSome = true) (hF : env.filesToChange.isSome = true) :
    (env.modifyJson = some none →
      (handleSubmit env s).writeFilesPayload = none ∧
      Stage.writeFiles ∉ (handleSubmit env s).trace ∧
      (handleSubmit env s).state.error = failedApplyMsg ∧
      (handleSubmit env s).state.previewUrl = s.previewUrl) ∧
    (∀ j, env.modifyJson = some (some j) → j.isArr = false →
      (handleSubmit env s).writeFilesPayload = none ∧
      Stage.writeFiles ∉ (handleSubmit env s).trace ∧
      (handleSubmit env s).state.error = failedApplyMsg ∧
      (handleSubmit env s).state.previewUrl = s.previewUrl) ∧
    (∀ xs, env.modifyJson = some (some (Json.arr xs)) →
      xs.all (fun x => ! x.isNull) = true →
      ∃ items, (handleSubmit env s).writeFilesPayload = some items ∧
        Stage.writeFiles ∈ (handleSubmit env s).trace) := by
  obtain ⟨a, ha⟩ := Option.isSome_iff_exists.1 hA
  obtain ⟨f, hf⟩ := Option.isSome_iff_exists.1 hF
  have hguard : ¬(jsTrim s.prompt = "" ∨ s.isLoading = true) := by
    simp [hPrompt, hLoad]
  refine ⟨?_, ?_, ?_⟩
  · intro hmj
    unfold handleSubmit
    rw [if_neg hguard]
    simp [ha, hf, hmj, submitCatch]
  · intro j hmj hja
    unfold handleSubmit
    rw [if_neg hguard]
    simp [ha, hf, hmj, jsArrayMapItems_not_arr j hja, submitCatch]
  · intro xs hmj hxs
    obtain ⟨ys, hys⟩ := mapResultItems_ok xs hxs
    unfold handleSubmit
    rw [if_neg hguard]
    simp only [ha, hf, hmj]
    have hj : jsArrayMapItems (Json.arr xs) = Except.ok ys := by
      simpa [jsArrayMapItems] using hys
    rw [hj]
    dsimp only
    split
    · exact ⟨ys, rfl, by simp⟩
    · exact ⟨ys, rfl, by simp [submitCatch]⟩

/-- C2 amended witness: the malformed item is forwarded and written. -/
theorem applyChange_rewrite_parse_lenient_witness :
    jsTrim stateWithPrompt.prompt ≠ "" ∧
    envMalformedModify.modifyJson =
      some (some (Json.arr [Json.obj [("path", Json.str "src/App.tsx")]])) ∧
    (∃ items, (handleSubmit envMalformedModify stateWithPrompt).writeFilesPayload =
        some items ∧
      Stage.writeFiles ∈ (handleSubmit envMalformedModify stateWithPrompt).trace) := by
  refine ⟨by decide, rfl, ?_⟩
  exact (applyChange_rewrite_parse_lenient envMalformedModify stateWithPrompt
    (by decide) rfl rfl rfl).2.2
    [Json.obj [("path", Json.str "src/App.tsx")]] rfl (by decide)
